import Mathlib

/-!
Verification of the authentication and session-lifecycle core of the
careplus backend (GraphQL healthcare-appointment server).

The development shallowly embeds the TypeScript source:
* `TokenBlacklistService` (src/services/token-blacklist.service.ts) — the
  in-memory revocation store, embedded as a function from token ids to
  optional expiry timestamps (the `Map<string, BlacklistEntry>`).
* `AuthService` (the single-token revision, services/auth.service.ts) —
  `register`, `login`, `validatePassword`, `validateToken`.
* The auth middleware — `extractTokenFromHeader`, `createAuthContext`
  (both the header-based and the cookie-based revisions), `requireAuth`,
  `requireAdmin`.
* The auth resolver — `logout` and `refreshToken` mutations.

The dual-token codec (`generateAccessToken`, `generateRefreshToken`,
`validateRefreshToken`, and the blacklist-aware `validateToken`) is not
present in the repository snapshot — only its callers and its
dependency-injection wiring (graphql/context.ts passes the blacklist
service into the auth service) are.  Those functions are modelled from
the spec, and are clearly marked as such below.

Timestamps are naturals counting milliseconds (`Date.now()`); effectful
code is embedded by explicit state passing; thrown exceptions become
`Option`/`Except` results.
-/

namespace Careplus

/-- A user record, as used by the auth core (Prisma `User`).
`password` is optional: guest-created accounts have none.  `role` is the
string the code compares against (`"ADMIN"`, `"PATIENT"`). -/
structure User where
  id : String
  email : String
  name : String
  phone : String
  password : Option String
  role : String
deriving Repr, DecidableEq

/-- Field error for form validation (auth.service.ts `FieldError`). -/
structure FieldError where
  field : Option String
  message : String
  code : Option String
deriving Repr, DecidableEq

/-- JWT token payload: the identity claims (auth.service.ts `TokenPayload`). -/
structure TokenPayload where
  userId : String
  email : String
  role : String
deriving Repr, DecidableEq

/-- Authentication result returned by register/login (auth.service.ts
`AuthResult`). -/
structure AuthResult where
  success : Bool
  token : Option String
  user : Option User
  errors : List FieldError
deriving Repr, DecidableEq

/-- Authentication context for GraphQL requests (auth.middleware.ts
`AuthContext`). -/
structure AuthContext where
  user : Option User
  token : Option String
  isAuthenticated : Bool
deriving Repr, DecidableEq

/-! ## Revocation store (token-blacklist.service.ts)

The service's `Map<string, BlacklistEntry>` is embedded as a function
from token identifiers to the optional `expiresAt` timestamp of their
entry (the stored `tokenId` field duplicates the key and is dropped).
Methods that mutate the map return the new map. -/

/-- The blacklist state: token id ↦ expiry of its entry, if present. -/
def Blacklist : Type := String → Option Nat

/-- The empty blacklist (`new Map()`). -/
def Blacklist.empty : Blacklist := fun _ => none

/-- `TokenBlacklistService.blacklistToken`: `this.blacklist.set(tokenId,
{ tokenId, expiresAt })`. -/
def blacklistToken (bl : Blacklist) (tokenId : String) (expiresAt : Nat) :
    Blacklist :=
  fun t => if t = tokenId then some expiresAt else bl t

/-- `TokenBlacklistService.isTokenBlacklisted`: looks the id up; a missing
entry gives `false`; an entry with `Date.now() > entry.expiresAt` is
deleted (lazy purge) and gives `false`; otherwise `true`.  Returns the
result together with the (possibly purged) store. -/
def isTokenBlacklisted (bl : Blacklist) (now : Nat) (tokenId : String) :
    Bool × Blacklist :=
  match bl tokenId with
  | none => (false, bl)
  | some expiresAt =>
    if now > expiresAt then
      (false, fun t => if t = tokenId then none else bl t)
    else
      (true, bl)

/-- `TokenBlacklistService.clearExpiredTokens`: the periodic sweep removes
every entry with `now > entry.expiresAt`. -/
def clearExpiredTokens (bl : Blacklist) (now : Nat) : Blacklist :=
  fun t =>
    match bl t with
    | none => none
    | some expiresAt => if now > expiresAt then none else some expiresAt

/-- `TokenBlacklistService.removeToken` (testing/admin helper). -/
def removeToken (bl : Blacklist) (tokenId : String) : Blacklist :=
  fun t => if t = tokenId then none else bl t

/-- `TokenBlacklistService.getTokenId`: `token.slice(-32)`, the last 32
characters of the token string (the whole string when shorter). -/
def getTokenId (token : String) : String :=
  token.drop (token.length - 32)

/-! ## AuthService, single-token revision (services/auth.service.ts)

The service's collaborators are passed as function arguments:
`findByEmail` is the injected user repository's email lookup; `compare`
is `bcrypt.compare`; `create` is `userService.create` (returning the
`ValidationError` message when a uniqueness constraint is violated);
`genToken` is `jwt.sign` over the identity claims.  They are opaque
collaborators of the core, per the spec's collaborator boundary. -/

/-- Login input (auth.service.ts `LoginInput`). -/
structure LoginInput where
  email : String
  password : String
deriving Repr, DecidableEq

/-- Registration input (auth.service.ts `RegisterInput`). -/
structure RegisterInput where
  email : String
  name : String
  phone : String
  password : String
deriving Repr, DecidableEq

/-- `userService.create` input (user.service.ts `CreateUserInput`). -/
structure CreateUserInput where
  email : String
  name : String
  phone : String
  password : Option String
deriving Repr, DecidableEq

/-- The generic credential error used by `AuthService.login`. -/
def invalidCredentialsError : FieldError :=
  { field := none
    message := "Invalid email or password"
    code := some "INVALID_CREDENTIALS" }

/-- The message `AuthService.login` returns for an account with no stored
password (a guest-created account). -/
def guestNoPasswordMessage : String :=
  "This account does not have a password. Please contact support."

/-- `AuthService.login`: finds the user by email; a missing user or a
failed password comparison yields the generic credential error; an
account whose stored password is absent (or empty, which JavaScript's
`!user.password` also treats as absent) yields the guest-account
message; otherwise a token is issued. -/
def login (findByEmail : String → Option User)
    (compare : String → String → Bool) (genToken : User → String)
    (input : LoginInput) : AuthResult :=
  match findByEmail input.email with
  | none =>
    { success := false, token := none, user := none
      errors := [invalidCredentialsError] }
  | some user =>
    match user.password with
    | none =>
      { success := false, token := none, user := none
        errors := [{ field := none, message := guestNoPasswordMessage
                     code := none }] }
    | some hashed =>
      if hashed = "" then
        { success := false, token := none, user := none
          errors := [{ field := none, message := guestNoPasswordMessage
                       code := none }] }
      else if compare input.password hashed then
        { success := true, token := some (genToken user)
          user := some user, errors := [] }
      else
        { success := false, token := none, user := none
          errors := [invalidCredentialsError] }

/-- `AuthService.validatePassword`: rejects passwords shorter than 8
characters with a field-scoped error. -/
def validatePassword (password : String) : List FieldError :=
  if password.length < 8 then
    [{ field := some "password"
       message := "Password must be at least 8 characters long"
       code := some "PASSWORD_TOO_SHORT" }]
  else
    []

/-- Outcome of `register`, extended with which collaborators were invoked
so that "does not call user creation" is statable: `hashCalled` records
whether the password hash was computed, `createCalled` the argument of
the `userService.create` call, when it happened. -/
structure RegisterOutcome where
  result : AuthResult
  hashCalled : Bool
  createCalled : Option CreateUserInput
deriving Repr, DecidableEq

/-- `AuthService.register`: validates the password first and returns its
field errors without hashing or creating; otherwise hashes the password,
creates the user (a `ValidationError` from the uniqueness check becomes
an email-scoped field error) and issues a token. -/
def register (hash : String → String)
    (create : CreateUserInput → Except String User)
    (genToken : User → String) (input : RegisterInput) : RegisterOutcome :=
  let passwordErrors := validatePassword input.password
  if passwordErrors = [] then
    let hashedPassword := hash input.password
    let createInput : CreateUserInput :=
      { email := input.email, name := input.name, phone := input.phone
        password := some hashedPassword }
    match create createInput with
    | Except.error msg =>
      { result := { success := false, token := none, user := none
                    errors := [{ field := some "email", message := msg
                                 code := none }] }
        hashCalled := true
        createCalled := some createInput }
    | Except.ok user =>
      { result := { success := true, token := some (genToken user)
                    user := some user, errors := [] }
        hashCalled := true
        createCalled := some createInput }
  else
    { result := { success := false, token := none, user := none
                  errors := passwordErrors }
      hashCalled := false
      createCalled := none }

/-! ## Dual-token codec

Modelled from the spec: the dual-token revision of the auth service
(`generateAccessToken`, `generateRefreshToken`, `validateToken`,
`validateRefreshToken`) is absent from the repository snapshot — only
its callers (auth.resolver.ts, the cookie-based middleware) and its
dependency-injection wiring (graphql/context.ts injects the token
blacklist into the auth service) remain.  Per spec §4.2 the two kinds
use distinguishable signing contexts (the README documents distinct
`JWT_SECRET`/`JWT_REFRESH_SECRET` keys and 15-minute/7-day lifetimes),
verification collapses bad signature, malformed payload, wrong kind and
expiry into one failure, and per §4.5/§4.3 a token whose derived
identifier is revoked is rejected.

A signed token is modelled as its claims, its expiry, and the key that
signed it; the serialization to the opaque wire string is kept abstract
as a `decode`/`encode` argument pair, since only the string's identity
(for `getTokenId`) matters to the callers. -/

/-- A decoded signed token: claims, expiry (ms) and signing key. -/
structure Jwt where
  payload : TokenPayload
  exp : Nat
  secret : String
deriving Repr, DecidableEq

/-- Modelled from the spec: the process-wide access-token signing key
(`env.JWT_SECRET`), an opaque constant here. -/
def jwtSecret : String := "jwt-secret"

/-- Modelled from the spec: the process-wide refresh-token signing key
(`env.JWT_REFRESH_SECRET`), distinct from the access key. -/
def jwtRefreshSecret : String := "jwt-refresh-secret"

/-- Nominal access-token lifetime: 15 minutes, in milliseconds. -/
def accessTokenLifetimeMs : Nat := 15 * 60 * 1000

/-- Nominal refresh-token lifetime: 7 days, in milliseconds. -/
def refreshTokenLifetimeMs : Nat := 7 * 24 * 60 * 60 * 1000

/-- Modelled from the spec: `generateAccessToken` signs the user's
identity claims with the access key, expiring after the access
lifetime. -/
def generateAccessToken (user : User) (now : Nat) : Jwt :=
  { payload := { userId := user.id, email := user.email, role := user.role }
    exp := now + accessTokenLifetimeMs
    secret := jwtSecret }

/-- Modelled from the spec: `generateRefreshToken` signs the user's
identity claims with the refresh key, expiring after the refresh
lifetime. -/
def generateRefreshToken (user : User) (now : Nat) : Jwt :=
  { payload := { userId := user.id, email := user.email, role := user.role }
    exp := now + refreshTokenLifetimeMs
    secret := jwtRefreshSecret }

/-- Modelled from the spec: token verification against an expected
signing key.  Fails (one undifferentiated failure) when the string does
not decode, was signed with a different key (wrong kind or forged),
is expired, or its derived identifier is revoked. -/
def verifyJwt (decode : String → Option Jwt) (secret : String)
    (bl : Blacklist) (now : Nat) (token : String) : Option TokenPayload :=
  match decode token with
  | none => none
  | some jwt =>
    if jwt.secret = secret then
      if jwt.exp ≤ now then none
      else if (isTokenBlacklisted bl now (getTokenId token)).1 then none
      else some jwt.payload
    else none

/-- Modelled from the spec: the dual-token `validateToken` — verifies an
ACCESS token. -/
def validateToken (decode : String → Option Jwt) (bl : Blacklist)
    (now : Nat) (token : String) : Option TokenPayload :=
  verifyJwt decode jwtSecret bl now token

/-- Modelled from the spec: `validateRefreshToken` — verifies a REFRESH
token. -/
def validateRefreshToken (decode : String → Option Jwt) (bl : Blacklist)
    (now : Nat) (token : String) : Option TokenPayload :=
  verifyJwt decode jwtRefreshSecret bl now token

/-- The single-token `AuthService.validateToken` of auth.service.ts
(present in the snapshot): `jwt.verify(token, env.JWT_SECRET)` with no
kind marker and no blacklist consultation; any failure is collapsed into
one thrown error, embedded as `none`. -/
def validateTokenLegacy (decode : String → Option Jwt) (now : Nat)
    (token : String) : Option TokenPayload :=
  match decode token with
  | none => none
  | some jwt =>
    if jwt.secret = jwtSecret then
      if jwt.exp ≤ now then none else some jwt.payload
    else none

/-! ## Auth guard (auth.middleware.ts, both revisions) -/

/-- The unauthenticated context returned on every failure path. -/
def unauthenticatedContext : AuthContext :=
  { user := none, token := none, isAuthenticated := false }

/-- JavaScript's `str.split(" ")` on the underlying character list:
splits at every single space, keeping empty components (so `""` gives
`[""]` and `"a  b"` gives `["a", "", "b"]`). -/
def splitOnSpaceChars : List Char → List (List Char)
  | [] => [[]]
  | c :: cs =>
    if c = ' ' then [] :: splitOnSpaceChars cs
    else
      match splitOnSpaceChars cs with
      | [] => [[c]]
      | w :: ws => (c :: w) :: ws

/-- JavaScript's `header.split(" ")`. -/
def splitOnSpace (s : String) : List String :=
  (splitOnSpaceChars s.data).map String.mk

/-- ASCII lowercasing of one character, as `toLowerCase` acts on the
ASCII range (the only range that can produce `"bearer"`). -/
def lowerChar (c : Char) : Char :=
  if 'A' ≤ c ∧ c ≤ 'Z' then Char.ofNat (c.toNat + 32) else c

/-- JavaScript's `parts[0].toLowerCase()`, restricted to the ASCII
mapping — full-Unicode lowercasing agrees with it on whether the result
equals `"bearer"`. -/
def lowerString (s : String) : String :=
  String.mk (s.data.map lowerChar)

/-- `extractTokenFromHeader`: accepts exactly the shape
`"Bearer <token>"` — the header must split on spaces into two parts with
the first equal to `bearer` case-insensitively.  A missing header, a
different scheme, a bare token or extra parts give `null`.  (A present
but empty header is falsy in JavaScript; it also splits into one part
here, so both semantics yield `none`.) -/
def extractTokenFromHeader (authHeader : Option String) : Option String :=
  match authHeader with
  | none => none
  | some header =>
    match splitOnSpace header with
    | [scheme, token] =>
      if lowerString scheme = "bearer" then some token else none
    | _ => none

/-- The request's cookie jar, possibly absent (`req.cookies?`). -/
structure CookieJar where
  accessToken : Option String
  refreshToken : Option String
deriving Repr, DecidableEq

/-- JavaScript's `value || null` coercion on an optional cookie value: an
absent or empty string becomes `none`. -/
def orNull (value : Option String) : Option String :=
  match value with
  | none => none
  | some s => if s = "" then none else some s

/-- `extractTokenFromCookies` (cookie-based middleware revision): reads
both token cookies, mapping absent jars and empty values to `null`. -/
def extractTokenFromCookies (cookies : Option CookieJar) :
    Option String × Option String :=
  match cookies with
  | none => (none, none)
  | some jar => (orNull jar.accessToken, orNull jar.refreshToken)

/-- The cookie-based `createAuthContext` revision (the one wired up by
graphql/context.ts): try the ACCESS cookie — if it validates and its
user exists, authenticated; otherwise fall through to the REFRESH
cookie — if it validates and its user exists, issue a fresh access
token (returned as the second component, the set-cookie side effect)
and authenticate; otherwise the unauthenticated context.  Every thrown
validation error is caught, so the function is total.  The refresh
fall-through block, written inline in the source, is the named helper
`tryRefreshAuth`. -/
def tryRefreshAuth (decode : String → Option Jwt) (encode : Jwt → String)
    (bl : Blacklist) (findById : String → Option User) (now : Nat)
    (refreshToken : Option String) : AuthContext × Option Jwt :=
  match refreshToken with
  | none => (unauthenticatedContext, none)
  | some refreshToken =>
    match validateRefreshToken decode bl now refreshToken with
    | none => (unauthenticatedContext, none)
    | some payload =>
      match findById payload.userId with
      | none => (unauthenticatedContext, none)
      | some user =>
        let newAccessToken := generateAccessToken user now
        ({ user := some user, token := some (encode newAccessToken)
           isAuthenticated := true },
         some newAccessToken)

def createAuthContext (decode : String → Option Jwt) (encode : Jwt → String)
    (bl : Blacklist) (findById : String → Option User) (now : Nat)
    (cookies : Option CookieJar) : AuthContext × Option Jwt :=
  match (extractTokenFromCookies cookies).1 with
  | none =>
    tryRefreshAuth decode encode bl findById now
      (extractTokenFromCookies cookies).2
  | some accessToken =>
    match validateToken decode bl now accessToken with
    | none =>
      tryRefreshAuth decode encode bl findById now
        (extractTokenFromCookies cookies).2
    | some payload =>
      match findById payload.userId with
      | none =>
        tryRefreshAuth decode encode bl findById now
          (extractTokenFromCookies cookies).2
      | some user =>
        ({ user := some user, token := some accessToken
           isAuthenticated := true },
         none)

/-- The header-based `createAuthContext` revision (the file currently at
src/middleware/auth.middleware.ts): extracts a bearer token from the
Authorization header and validates it with the single-token service; a
missing token, failed validation, or missing user all yield the
unauthenticated context. -/
def createAuthContextHeader (decode : String → Option Jwt)
    (findById : String → Option User) (now : Nat)
    (authHeader : Option String) : AuthContext :=
  match extractTokenFromHeader authHeader with
  | none => unauthenticatedContext
  | some token =>
    match validateTokenLegacy decode now token with
    | none => unauthenticatedContext
    | some payload =>
      match findById payload.userId with
      | none => unauthenticatedContext
      | some user =>
        { user := some user, token := some token, isAuthenticated := true }

/-- The errors the resolver guards throw. -/
inductive GuardError where
  | authentication (message : String)
  | authorization (message : String)
deriving Repr, DecidableEq

/-- `requireAuth`: throws `AuthenticationError("Authentication
required")` when the context is unauthenticated or carries no user;
otherwise returns the user. -/
def requireAuth (ctx : AuthContext) : Except GuardError User :=
  if ctx.isAuthenticated then
    match ctx.user with
    | none => Except.error (GuardError.authentication "Authentication required")
    | some user => Except.ok user
  else
    Except.error (GuardError.authentication "Authentication required")

/-- `requireAdmin`: runs `requireAuth` first, then throws
`AuthorizationError("Admin access required")` unless the user's role is
`"ADMIN"`. -/
def requireAdmin (ctx : AuthContext) : Except GuardError User :=
  match requireAuth ctx with
  | Except.error e => Except.error e
  | Except.ok user =>
    if user.role = "ADMIN" then Except.ok user
    else Except.error (GuardError.authorization "Admin access required")

/-! ## Auth resolver mutations (graphql/resolvers/auth.resolver.ts) -/

/-- The `logout` mutation: for each cookie token that is present (a
JavaScript-truthy, i.e. nonempty, value) it computes the token's
identifier and blacklists it until `now` plus that kind's nominal
lifetime; it always returns `true`.  (The wrapping
`if (accessToken || refreshToken)` of the source is redundant given the
inner presence checks and is dropped.) -/
def logout (accessToken refreshToken : Option String) (bl : Blacklist)
    (now : Nat) : Bool × Blacklist :=
  let bl1 :=
    match accessToken with
    | some a =>
      if a = "" then bl
      else blacklistToken bl (getTokenId a) (now + accessTokenLifetimeMs)
    | none => bl
  let bl2 :=
    match refreshToken with
    | some r =>
      if r = "" then bl1
      else blacklistToken bl1 (getTokenId r) (now + refreshTokenLifetimeMs)
    | none => bl1
  (true, bl2)

/-- Result shape of the `refreshToken` mutation; `newAccessToken` is the
access token set as a cookie on success. -/
structure RefreshPayload where
  success : Bool
  user : Option User
  errors : List FieldError
  newAccessToken : Option Jwt
deriving Repr, DecidableEq

/-- The `refreshToken` mutation: a missing (or empty, JavaScript-falsy)
refresh cookie is reported as missing; a refresh token that fails
validation (bad signature, wrong kind, expired, or revoked) yields the
invalid-token error; a validated token whose user no longer exists
yields a user-not-found error; otherwise a new access token is issued
for the freshly fetched user. -/
def refreshTokenMutation (decode : String → Option Jwt) (bl : Blacklist)
    (findById : String → Option User) (now : Nat)
    (cookies : Option CookieJar) : RefreshPayload :=
  match orNull (cookies.bind CookieJar.refreshToken) with
  | none =>
    { success := false, user := none
      errors := [{ field := none, message := "Refresh token not found"
                   code := some "REFRESH_TOKEN_MISSING" }]
      newAccessToken := none }
  | some refreshToken =>
    match validateRefreshToken decode bl now refreshToken with
    | none =>
      { success := false, user := none
        errors := [{ field := none
                     message := "Invalid or expired refresh token"
                     code := some "INVALID_REFRESH_TOKEN" }]
        newAccessToken := none }
    | some payload =>
      match findById payload.userId with
      | none =>
        { success := false, user := none
          errors := [{ field := none, message := "User not found"
                       code := some "USER_NOT_FOUND" }]
          newAccessToken := none }
      | some user =>
        { success := true, user := some user, errors := []
          newAccessToken := some (generateAccessToken user now) }

/-! ## Theorems -/

/-- Unfolding equation for `extractTokenFromHeader` on a present
header. -/
theorem extractTokenFromHeader_some (s : String) :
    extractTokenFromHeader (some s) =
      (match splitOnSpace s with
       | [scheme, token] =>
         if lowerString scheme = "bearer" then some token else none
       | _ => none) := rfl

/-- C5: `isTokenBlacklisted` returns `true` iff an entry for the id
exists whose `expiresAt` is not in the past; an expired entry is treated
as absent — the lookup answers `false` and removes exactly that entry
(lazy purge, other keys untouched) — and the periodic sweep
`clearExpiredTokens` keeps precisely the entries that are still alive.
The statement is universally quantified over the store, so it holds in
every state reachable by any sequence of `blacklistToken` /
`isTokenBlacklisted` / sweep operations. -/
theorem C5_blacklist_expiry_invariant (bl : Blacklist) (now : Nat)
    (tokenId : String) :
    ((isTokenBlacklisted bl now tokenId).1 = true ↔
      ∃ e, bl tokenId = some e ∧ ¬ now > e)
    ∧ (∀ t, (isTokenBlacklisted bl now tokenId).2 t =
        if t = tokenId then
          (bl tokenId).bind (fun e => if now > e then none else some e)
        else bl t)
    ∧ (∀ t, clearExpiredTokens bl now t =
        (bl t).bind (fun e => if now > e then none else some e)) := by
  refine ⟨?_, ?_, ?_⟩
  · unfold isTokenBlacklisted
    cases h : bl tokenId with
    | none => simp [h]
    | some e =>
      by_cases hx : now > e
      · simp [h, hx]
      · simp [h, hx]
        omega
  · intro t
    unfold isTokenBlacklisted
    cases h : bl tokenId with
    | none =>
      by_cases ht : t = tokenId
      · subst ht; simp [h]
      · simp [ht]
    | some e =>
      by_cases hx : now > e
      · by_cases ht : t = tokenId
        · subst ht; simp [h, hx]
        · simp [h, hx, ht]
      · by_cases ht : t = tokenId
        · subst ht; simp [h, hx]
        · simp [h, hx, ht]
  · intro t
    unfold clearExpiredTokens
    cases h : bl t with
    | none => simp
    | some e => simp

/-- C6: registration with a password shorter than 8 characters returns
an unsuccessful result with the field-scoped password error, without
hashing the password and without invoking user creation. -/
theorem C6_register_short_password (hash : String → String)
    (create : CreateUserInput → Except String User)
    (genToken : User → String) (input : RegisterInput)
    (h : input.password.length < 8) :
    register hash create genToken input =
      { result := { success := false, token := none, user := none
                    errors := [{ field := some "password"
                                 message := "Password must be at least 8 characters long"
                                 code := some "PASSWORD_TOO_SHORT" }] }
        hashCalled := false
        createCalled := none } := by
  unfold register validatePassword
  simp [h]

/-- C6 witness: a concrete 7-character password is rejected without any
persistence call. -/
theorem C6_register_short_password_witness :
    register (fun s => s) (fun _ => Except.error "dup") (fun _ => "tok")
        { email := "a@x.com", name := "A", phone := "+1"
          password := "1234567" } =
      { result := { success := false, token := none, user := none
                    errors := [{ field := some "password"
                                 message := "Password must be at least 8 characters long"
                                 code := some "PASSWORD_TOO_SHORT" }] }
        hashCalled := false
        createCalled := none } :=
  C6_register_short_password (fun s => s) (fun _ => Except.error "dup")
    (fun _ => "tok")
    { email := "a@x.com", name := "A", phone := "+1", password := "1234567" }
    (by decide)

/-- C7: `logout` returns `true` for every combination of present and
absent tokens — with neither present it is an exact no-op on the store —
and for each present (nonempty, i.e. JavaScript-truthy) token it inserts
an entry for that token's identifier expiring at `now` plus the token
kind's nominal lifetime (15 minutes for access, 7 days for refresh); the
store is unchanged at every other key.  When both identifiers coincide
the refresh entry, written second, is the surviving one. -/
theorem C7_logout_blacklists_present_tokens (bl : Blacklist) (now : Nat)
    (a r : String) :
    logout none none bl now = (true, bl)
    ∧ (logout (some a) none bl now).1 = true
    ∧ (logout none (some r) bl now).1 = true
    ∧ (logout (some a) (some r) bl now).1 = true
    ∧ (∀ t, (logout (some a) none bl now).2 t =
        if a ≠ "" ∧ t = getTokenId a then some (now + accessTokenLifetimeMs)
        else bl t)
    ∧ (∀ t, (logout none (some r) bl now).2 t =
        if r ≠ "" ∧ t = getTokenId r then some (now + refreshTokenLifetimeMs)
        else bl t)
    ∧ (∀ t, (logout (some a) (some r) bl now).2 t =
        if r ≠ "" ∧ t = getTokenId r then some (now + refreshTokenLifetimeMs)
        else if a ≠ "" ∧ t = getTokenId a then
          some (now + accessTokenLifetimeMs)
        else bl t) := by
  refine ⟨rfl, ?_, ?_, ?_, ?_, ?_, ?_⟩
  · unfold logout; by_cases ha : a = "" <;> simp [ha]
  · unfold logout; by_cases hr : r = "" <;> simp [hr]
  · unfold logout
    by_cases ha : a = "" <;> by_cases hr : r = "" <;> simp [ha, hr]
  · intro t
    unfold logout blacklistToken
    by_cases ha : a = "" <;> by_cases ht : t = getTokenId a <;>
      simp [ha, ht]
  · intro t
    unfold logout blacklistToken
    by_cases hr : r = "" <;> by_cases ht : t = getTokenId r <;>
      simp [hr, ht]
  · intro t
    unfold logout blacklistToken
    by_cases ha : a = "" <;> by_cases hr : r = "" <;>
      by_cases hta : t = getTokenId a <;> by_cases htr : t = getTokenId r <;>
      simp [ha, hr, hta, htr]

/-- C9: `requireAdmin` throws the authentication error on an
unauthenticated context; it throws the authorization error only on a
context that is authenticated, carries a user, and that user's role is
not `"ADMIN"`; and on an authenticated admin context it returns the
user — the authentication check strictly precedes the role check. -/
theorem C9_requireAdmin_ordering (ctx : AuthContext) :
    (ctx.isAuthenticated = false →
      requireAdmin ctx =
        Except.error (GuardError.authentication "Authentication required"))
    ∧ (∀ msg, requireAdmin ctx = Except.error (GuardError.authorization msg) →
        ctx.isAuthenticated = true
        ∧ ∃ u, ctx.user = some u ∧ u.role ≠ "ADMIN")
    ∧ (∀ u, ctx.isAuthenticated = true → ctx.user = some u →
        u.role = "ADMIN" → requireAdmin ctx = Except.ok u) := by
  refine ⟨?_, ?_, ?_⟩
  · intro h
    unfold requireAdmin requireAuth
    simp [h]
  · intro msg h
    unfold requireAdmin requireAuth at h
    by_cases hauth : ctx.isAuthenticated
    · cases hu : ctx.user with
      | none => simp [hauth, hu] at h
      | some u =>
        refine ⟨hauth, u, rfl, ?_⟩
        by_cases hrole : u.role = "ADMIN" <;> simp [hauth, hu, hrole] at h
        exact hrole
    · simp [hauth] at h
  · intro u hauth hu hrole
    unfold requireAdmin requireAuth
    simp [hauth, hu, hrole]

/-- C9 witness: the unauthenticated context is rejected with the
authentication error, via the main theorem. -/
theorem C9_requireAdmin_ordering_witness :
    requireAdmin { user := none, token := none, isAuthenticated := false } =
      Except.error (GuardError.authentication "Authentication required") :=
  (C9_requireAdmin_ordering
    { user := none, token := none, isAuthenticated := false }).1 rfl

/-- C10: `extractTokenFromHeader` returns a token exactly when the
header value splits on spaces into two parts whose first part is
`bearer` case-insensitively, and then it returns the second part; every
other input — absent header, other scheme, bare token, extra parts —
yields `none`. -/
theorem C10_extractTokenFromHeader_shape (authHeader : Option String) :
    (∀ s scheme token, authHeader = some s →
      splitOnSpace s = [scheme, token] → lowerString scheme = "bearer" →
      extractTokenFromHeader authHeader = some token)
    ∧ (extractTokenFromHeader authHeader = none ↔
        ¬ ∃ s scheme token, authHeader = some s
          ∧ splitOnSpace s = [scheme, token]
          ∧ lowerString scheme = "bearer") := by
  constructor
  · intro s scheme token hs hsplit hlower
    subst hs
    rw [extractTokenFromHeader_some, hsplit]
    simp [hlower]
  · cases authHeader with
    | none => simp [extractTokenFromHeader]
    | some s =>
      constructor
      · intro h hex
        obtain ⟨s', scheme, token, hs', hsplit', hlower'⟩ := hex
        cases hs'
        rw [extractTokenFromHeader_some, hsplit'] at h
        simp [hlower'] at h
      · intro hex
        rw [extractTokenFromHeader_some]
        cases hsplit : splitOnSpace s with
        | nil => rfl
        | cons x xs =>
          cases xs with
          | nil => rfl
          | cons y ys =>
            cases ys with
            | cons z zs => rfl
            | nil =>
              by_cases hlower : lowerString x = "bearer"
              · exact absurd ⟨s, x, y, rfl, hsplit, hlower⟩ hex
              · simp [hlower]

/-- C10 witness: a well-formed `Bearer` header yields its token, via the
main theorem. -/
theorem C10_extractTokenFromHeader_shape_witness :
    extractTokenFromHeader (some "Bearer abc") = some "abc" :=
  (C10_extractTokenFromHeader_shape (some "Bearer abc")).1
    "Bearer abc" "Bearer" "abc" rfl (by decide) (by decide)

/-- Lookup collaborator with a single guest-created (passwordless)
account, for exercising the guest branch of `login`. -/
def guestLookup : String → Option User := fun email =>
  if email = "guest@x.com" then
    some { id := "u-guest", email := "guest@x.com", name := "Guest"
           phone := "+1", password := none, role := "PATIENT" }
  else none

/-- C1 counterexample: a login attempt against a guest-created account
fails, but its error message is the support message, not
`"Invalid email or password"` — so the three failure cases do not all
carry the identical message. -/
theorem C1_guest_message_counterexample :
    (login guestLookup (fun _ _ => false) (fun _ => "tok")
        { email := "guest@x.com", password := "anything" }).success = false
    ∧ (login guestLookup (fun _ _ => false) (fun _ => "tok")
          { email := "guest@x.com", password := "anything" }).errors.map
        FieldError.message ≠ ["Invalid email or password"] := by
  decide

/-- C1 (amended): a login whose email matches no user, or whose password
comparison fails, returns the unsuccessful result carrying exactly the
generic `"Invalid email or password"` error; a login against an account
with no stored password (or the JavaScript-falsy empty hash) returns an
unsuccessful result carrying the distinct guest-account support
message. -/
theorem C1_login_failure_messages (findByEmail : String → Option User)
    (compare : String → String → Bool) (genToken : User → String)
    (input : LoginInput) :
    (findByEmail input.email = none →
      login findByEmail compare genToken input =
        { success := false, token := none, user := none
          errors := [invalidCredentialsError] })
    ∧ (∀ u hp, findByEmail input.email = some u → u.password = some hp →
        hp ≠ "" → compare input.password hp = false →
        login findByEmail compare genToken input =
          { success := false, token := none, user := none
            errors := [invalidCredentialsError] })
    ∧ (∀ u, findByEmail input.email = some u →
        (u.password = none ∨ u.password = some "") →
        login findByEmail compare genToken input =
          { success := false, token := none, user := none
            errors := [{ field := none, message := guestNoPasswordMessage
                         code := none }] }) := by
  refine ⟨?_, ?_, ?_⟩
  · intro h
    simp [login, h]
  · intro u hp hu hpw hne hcmp
    simp [login, hu, hpw, hne, hcmp]
  · intro u hu hpw
    rcases hpw with hpw | hpw <;> simp [login, hu, hpw]

/-- C1 witness: the missing-user case carries the generic credential
error, via the amended theorem. -/
theorem C1_login_failure_messages_witness :
    login (fun _ => none) (fun _ _ => true) (fun _ => "tok")
        { email := "missing@x.com", password := "anything" } =
      { success := false, token := none, user := none
        errors := [invalidCredentialsError] } :=
  (C1_login_failure_messages (fun _ => none) (fun _ _ => true)
    (fun _ => "tok") { email := "missing@x.com", password := "anything" }).1
    rfl

/-- C3: a token issued as a REFRESH token is rejected by access-token
verification — its signing context is the refresh key, which access
verification does not accept — whatever the blacklist state or the
verification time. -/
theorem C3_refresh_token_rejected_as_access (decode : String → Option Jwt)
    (bl : Blacklist) (user : User) (issuedAt now : Nat) (token : String)
    (h : decode token = some (generateRefreshToken user issuedAt)) :
    validateToken decode bl now token = none := by
  have hne : jwtRefreshSecret ≠ jwtSecret := by decide
  unfold validateToken verifyJwt
  rw [h]
  simp [generateRefreshToken, hne]

/-- C3 witness: a concrete refresh token presented for access
verification fails, via the main theorem. -/
theorem C3_refresh_token_rejected_as_access_witness :
    validateToken
        (fun s =>
          if s = "refresh-token" then
            some (generateRefreshToken
              { id := "u1", email := "e@x.com", name := "N", phone := "+1"
                password := none, role := "PATIENT" } 0)
          else none)
        Blacklist.empty 5 "refresh-token" = none :=
  C3_refresh_token_rejected_as_access
    (fun s =>
      if s = "refresh-token" then
        some (generateRefreshToken
          { id := "u1", email := "e@x.com", name := "N", phone := "+1"
            password := none, role := "PATIENT" } 0)
      else none)
    Blacklist.empty
    { id := "u1", email := "e@x.com", name := "N", phone := "+1"
      password := none, role := "PATIENT" }
    0 5 "refresh-token" (by decide)

/-- Verification fails whenever the token's identifier has a live
blacklist entry, or the token is expired — whichever applies: every
decoded token whose expiry is at most the entry's expiry is rejected at
every time. -/
theorem verifyJwt_revoked (decode : String → Option Jwt) (secret : String)
    (bl : Blacklist) (now e : Nat) (token : String)
    (hbl : bl (getTokenId token) = some e)
    (hexp : ∀ jwt, decode token = some jwt → jwt.exp ≤ e) :
    verifyJwt decode secret bl now token = none := by
  unfold verifyJwt
  cases hd : decode token with
  | none => rfl
  | some jwt =>
    by_cases hs : jwt.secret = secret
    · by_cases hex : jwt.exp ≤ now
      · simp [hs, hex]
      · have hle := hexp jwt hd
        have halive : ¬ now > e := by omega
        simp [hs, hex, isTokenBlacklisted, hbl, halive]
    · simp [hs]

/-- Verification fails whenever the token's identifier has a blacklist
entry that has not lapsed, regardless of the token's own state. -/
theorem verifyJwt_blacklisted (decode : String → Option Jwt)
    (secret : String) (bl : Blacklist) (now e : Nat) (token : String)
    (hbl : bl (getTokenId token) = some e) (halive : ¬ now > e) :
    verifyJwt decode secret bl now token = none := by
  unfold verifyJwt
  cases hd : decode token with
  | none => rfl
  | some jwt =>
    by_cases hs : jwt.secret = secret
    · by_cases hex : jwt.exp ≤ now
      · simp [hs, hex]
      · simp [hs, hex, isTokenBlacklisted, hbl, halive]
    · simp [hs]

/-- Verification fails whenever the decoded token is expired. -/
theorem verifyJwt_expired (decode : String → Option Jwt) (secret : String)
    (bl : Blacklist) (now : Nat) (token : String)
    (hexp : ∀ jwt, decode token = some jwt → jwt.exp ≤ now) :
    verifyJwt decode secret bl now token = none := by
  unfold verifyJwt
  cases hd : decode token with
  | none => rfl
  | some jwt =>
    by_cases hs : jwt.secret = secret
    · simp [hs, hexp jwt hd]
    · simp [hs]

/-- After a `logout` with a present access token, the access token's
identifier carries an entry expiring no earlier than the logout time
plus the access lifetime (later when the refresh identifier collides
with it). -/
theorem logout_access_entry (bl : Blacklist) (t : Nat) (a r : String)
    (ha : a ≠ "") :
    ∃ e, (logout (some a) (some r) bl t).2 (getTokenId a) = some e
      ∧ t + accessTokenLifetimeMs ≤ e := by
  unfold logout blacklistToken
  by_cases hr : r = ""
  · exact ⟨t + accessTokenLifetimeMs, by simp [ha, hr], le_refl _⟩
  · by_cases hid : getTokenId a = getTokenId r
    · refine ⟨t + refreshTokenLifetimeMs, by simp [ha, hr, hid], ?_⟩
      have : accessTokenLifetimeMs ≤ refreshTokenLifetimeMs := by decide
      omega
    · exact ⟨t + accessTokenLifetimeMs, by simp [ha, hr, hid], le_refl _⟩

/-- After a `logout` with a present refresh token, the refresh token's
identifier carries an entry expiring at the logout time plus the refresh
lifetime. -/
theorem logout_refresh_entry (bl : Blacklist) (t : Nat) (a : Option String)
    (r : String) (hr : r ≠ "") :
    (logout a (some r) bl t).2 (getTokenId r) =
      some (t + refreshTokenLifetimeMs) := by
  unfold logout blacklistToken
  cases a with
  | none => simp [hr]
  | some a => by_cases ha : a = "" <;> simp [ha, hr]

/-- C2: after `logout` blacklists the identifiers of a pair of tokens
issued with the nominal lifetimes (their expiries are at most the logout
time plus the respective lifetime — in particular any pair that has not
yet expired), guard resolution presented with those exact tokens at any
later (or earlier) time returns the unauthenticated context and sets no
cookie: while the blacklist entry is alive the identifier check rejects
the token, and once the entry has lapsed the token itself has already
expired. -/
theorem C2_logout_then_guard_unauthenticated (decode : String → Option Jwt)
    (encode : Jwt → String) (bl : Blacklist)
    (findById : String → Option User) (a r : String) (logoutTime now : Nat)
    (ha : ∀ jwt, decode a = some jwt →
      jwt.exp ≤ logoutTime + accessTokenLifetimeMs)
    (hr : ∀ jwt, decode r = some jwt →
      jwt.exp ≤ logoutTime + refreshTokenLifetimeMs) :
    createAuthContext decode encode
        (logout (some a) (some r) bl logoutTime).2 findById now
        (some { accessToken := some a, refreshToken := some r }) =
      (unauthenticatedContext, none) := by
  have hvr : r ≠ "" →
      validateRefreshToken decode (logout (some a) (some r) bl logoutTime).2
        now r = none := by
    intro hre
    unfold validateRefreshToken
    exact verifyJwt_revoked decode jwtRefreshSecret _ now
      (logoutTime + refreshTokenLifetimeMs) r
      (logout_refresh_entry bl logoutTime (some a) r hre) hr
  have hva : a ≠ "" →
      validateToken decode (logout (some a) (some r) bl logoutTime).2
        now a = none := by
    intro hae
    obtain ⟨e, he, hle⟩ := logout_access_entry bl logoutTime a r hae
    unfold validateToken
    exact verifyJwt_revoked decode jwtSecret _ now e a he
      (fun jwt hj => le_trans (ha jwt hj) hle)
  unfold createAuthContext tryRefreshAuth extractTokenFromCookies orNull
  by_cases hae : a = "" <;> by_cases hre : r = ""
  · subst hae; subst hre; simp
  · subst hae; simp [hre, hvr hre]
  · subst hre; simp [hae, hva hae]
  · simp [hae, hre, hva hae, hvr hre]

/-- Collaborators for the C2 witness: decodes mapping two concrete
cookie strings to an access and a refresh token issued at time 0. -/
def c2Decode : String → Option Jwt := fun s =>
  if s = "access-cookie" then
    some (generateAccessToken
      { id := "u1", email := "e@x.com", name := "N", phone := "+1"
        password := some "h", role := "PATIENT" } 0)
  else if s = "refresh-cookie" then
    some (generateRefreshToken
      { id := "u1", email := "e@x.com", name := "N", phone := "+1"
        password := some "h", role := "PATIENT" } 0)
  else none

/-- C2 witness: concrete tokens logged out at time 0 are rejected by
guard resolution at time 100, via the main theorem. -/
theorem C2_logout_then_guard_unauthenticated_witness :
    createAuthContext c2Decode (fun _ => "enc")
        (logout (some "access-cookie") (some "refresh-cookie")
          Blacklist.empty 0).2
        (fun _ => none) 100
        (some { accessToken := some "access-cookie"
                refreshToken := some "refresh-cookie" }) =
      (unauthenticatedContext, none) :=
  C2_logout_then_guard_unauthenticated c2Decode (fun _ => "enc")
    Blacklist.empty (fun _ => none) "access-cookie" "refresh-cookie" 0 100
    (by
      intro jwt hj
      injection hj with h
      rw [← h]
      decide)
    (by
      intro jwt hj
      injection hj with h
      rw [← h]
      decide)

/-- Decode collaborator for C4: one refresh token carrying the role
claim `"PATIENT"`. -/
def c4Decode : String → Option Jwt := fun s =>
  if s = "refresh-cookie-c4" then
    some { payload := { userId := "u1", email := "e@x.com", role := "PATIENT" }
           exp := 604800000, secret := jwtRefreshSecret }
  else none

/-- Lookup collaborator for C4: the token's user, whose role has since
been changed to `"ADMIN"`. -/
def roleChangedLookup : String → Option User := fun i =>
  if i = "u1" then
    some { id := "u1", email := "e@x.com", name := "N", phone := "+1"
           password := some "hash", role := "ADMIN" }
  else none

/-- C4 counterexample: a valid (unrevoked, unexpired) refresh token whose
user's role changed after issuance makes the mutation succeed, but the
new access token's role claim is the user record's current role, not the
refresh token's role claim — so the issued claims do not match the
refresh token's claims. -/
theorem C4_claims_mismatch_counterexample :
    (refreshTokenMutation c4Decode Blacklist.empty roleChangedLookup 0
        (some { accessToken := none
                refreshToken := some "refresh-cookie-c4" })).success = true
    ∧ validateRefreshToken c4Decode Blacklist.empty 0 "refresh-cookie-c4" =
        some { userId := "u1", email := "e@x.com", role := "PATIENT" }
    ∧ ((refreshTokenMutation c4Decode Blacklist.empty roleChangedLookup 0
          (some { accessToken := none
                  refreshToken := some "refresh-cookie-c4" })).newAccessToken.map
        (fun jwt => jwt.payload.role)) = some "ADMIN"
    ∧ ("ADMIN" : String) ≠ "PATIENT" := by
  decide

/-- C4 (amended): the mutation fails with the invalid-token error
whenever the presented refresh token is revoked (a live blacklist entry
for its identifier) or expired; with a refresh token that validates, it
succeeds exactly when the token's user still exists, issuing a new
access token whose claims are the freshly looked-up user record's —
the `userId` claim necessarily equals the refresh token's (under the
lookup's key discipline) while `email`/`role` reflect the current
record, matching the token's claims whenever the record is
unchanged — and it fails with the user-not-found error when the user
was deleted. -/
theorem C4_refreshToken_mutation_behaviour (decode : String → Option Jwt)
    (bl : Blacklist) (findById : String → Option User) (now : Nat)
    (accessCookie : Option String) (r : String) :
    (∀ e, r ≠ "" → bl (getTokenId r) = some e → ¬ now > e →
      refreshTokenMutation decode bl findById now
          (some { accessToken := accessCookie, refreshToken := some r }) =
        { success := false, user := none
          errors := [{ field := none
                       message := "Invalid or expired refresh token"
                       code := some "INVALID_REFRESH_TOKEN" }]
          newAccessToken := none })
    ∧ (r ≠ "" → (∀ jwt, decode r = some jwt → jwt.exp ≤ now) →
        refreshTokenMutation decode bl findById now
            (some { accessToken := accessCookie, refreshToken := some r }) =
          { success := false, user := none
            errors := [{ field := none
                         message := "Invalid or expired refresh token"
                         code := some "INVALID_REFRESH_TOKEN" }]
            newAccessToken := none })
    ∧ (∀ (payload : TokenPayload) (user : User), r ≠ "" →
        validateRefreshToken decode bl now r = some payload →
        findById payload.userId = some user →
        refreshTokenMutation decode bl findById now
            (some { accessToken := accessCookie, refreshToken := some r }) =
          { success := true, user := some user, errors := []
            newAccessToken := some (generateAccessToken user now) })
    ∧ (∀ (payload : TokenPayload) (user : User),
        findById payload.userId = some user →
        (∀ i u, findById i = some u → u.id = i) →
        (generateAccessToken user now).payload =
          { userId := payload.userId, email := user.email
            role := user.role })
    ∧ (∀ (payload : TokenPayload), r ≠ "" →
        validateRefreshToken decode bl now r = some payload →
        findById payload.userId = none →
        refreshTokenMutation decode bl findById now
            (some { accessToken := accessCookie, refreshToken := some r }) =
          { success := false, user := none
            errors := [{ field := none, message := "User not found"
                         code := some "USER_NOT_FOUND" }]
            newAccessToken := none }) := by
  refine ⟨?_, ?_, ?_, ?_, ?_⟩
  · intro e hre hbl halive
    have hv : validateRefreshToken decode bl now r = none :=
      verifyJwt_blacklisted decode jwtRefreshSecret bl now e r hbl halive
    unfold refreshTokenMutation
    simp [orNull, hre, hv]
  · intro hre hexp
    have hv : validateRefreshToken decode bl now r = none :=
      verifyJwt_expired decode jwtRefreshSecret bl now r hexp
    unfold refreshTokenMutation
    simp [orNull, hre, hv]
  · intro payload user hre hv hf
    unfold refreshTokenMutation
    simp [orNull, hre, hv, hf]
  · intro payload user hf hwf
    have hid := hwf payload.userId user hf
    simp [generateAccessToken, hid]
  · intro payload hre hv hf
    unfold refreshTokenMutation
    simp [orNull, hre, hv, hf]

/-- C4 witness: a revoked concrete refresh token is rejected with the
invalid-token error, via the amended theorem. -/
theorem C4_refreshToken_mutation_behaviour_witness :
    refreshTokenMutation c4Decode
        (blacklistToken Blacklist.empty (getTokenId "refresh-cookie-c4") 1000)
        roleChangedLookup 5
        (some { accessToken := none
                refreshToken := some "refresh-cookie-c4" }) =
      { success := false, user := none
        errors := [{ field := none
                     message := "Invalid or expired refresh token"
                     code := some "INVALID_REFRESH_TOKEN" }]
        newAccessToken := none } :=
  (C4_refreshToken_mutation_behaviour c4Decode
    (blacklistToken Blacklist.empty (getTokenId "refresh-cookie-c4") 1000)
    roleChangedLookup 5 none "refresh-cookie-c4").1
    1000 (by decide) (by decide) (by decide)

/-- Every run of the refresh fall-through is either the unauthenticated
no-cookie pair or a fully validated authentication that issues a fresh
access token. -/
theorem tryRefreshAuth_cases (decode : String → Option Jwt)
    (encode : Jwt → String) (bl : Blacklist)
    (findById : String → Option User) (now : Nat)
    (refreshToken : Option String) :
    tryRefreshAuth decode encode bl findById now refreshToken =
      (unauthenticatedContext, none)
    ∨ ∃ r payload user, refreshToken = some r
        ∧ validateRefreshToken decode bl now r = some payload
        ∧ findById payload.userId = some user
        ∧ tryRefreshAuth decode encode bl findById now refreshToken =
            ({ user := some user
               token := some (encode (generateAccessToken user now))
               isAuthenticated := true },
             some (generateAccessToken user now)) := by
  unfold tryRefreshAuth
  split
  · exact Or.inl rfl
  · rename_i r
    split
    · exact Or.inl rfl
    · rename_i payload hv
      split
      · exact Or.inl rfl
      · rename_i user hf
        exact Or.inr ⟨r, payload, user, rfl, hv, hf, rfl⟩

/-- C8: guard resolution is total and fails closed, in both revisions:
the cookie-based guard either returns exactly the unauthenticated
context with no cookie side effect, or returns an authenticated context
backed by a full success — a validated access token whose user exists,
or a validated refresh token whose user exists plus a freshly issued
access token; the header-based guard likewise returns exactly the
unauthenticated context unless extraction, validation and user lookup
all succeed.  Both embeddings are total functions: every thrown
validation error in the source is caught on the failure paths. -/
theorem C8_guard_resolution_total (decode : String → Option Jwt)
    (encode : Jwt → String) (bl : Blacklist)
    (findById : String → Option User) (now : Nat)
    (cookies : Option CookieJar) (authHeader : Option String) :
    (createAuthContext decode encode bl findById now cookies =
        (unauthenticatedContext, none)
     ∨ ∃ payload user, findById payload.userId = some user
        ∧ ((∃ a, (extractTokenFromCookies cookies).1 = some a
             ∧ validateToken decode bl now a = some payload
             ∧ createAuthContext decode encode bl findById now cookies =
                 ({ user := some user, token := some a
                    isAuthenticated := true },
                  none))
           ∨ (∃ r, (extractTokenFromCookies cookies).2 = some r
             ∧ validateRefreshToken decode bl now r = some payload
             ∧ createAuthContext decode encode bl findById now cookies =
                 ({ user := some user
                    token := some (encode (generateAccessToken user now))
                    isAuthenticated := true },
                  some (generateAccessToken user now)))))
    ∧ (createAuthContextHeader decode findById now authHeader =
        unauthenticatedContext
       ∨ ∃ token payload user,
           extractTokenFromHeader authHeader = some token
           ∧ validateTokenLegacy decode now token = some payload
           ∧ findById payload.userId = some user
           ∧ createAuthContextHeader decode findById now authHeader =
               { user := some user, token := some token
                 isAuthenticated := true }) := by
  constructor
  · unfold createAuthContext
    split
    · rcases tryRefreshAuth_cases decode encode bl findById now
          (extractTokenFromCookies cookies).2 with
        h | ⟨r, payload, user, hrt, hv, hf, heq⟩
      · exact Or.inl h
      · exact Or.inr ⟨payload, user, hf, Or.inr ⟨r, hrt, hv, heq⟩⟩
    · rename_i a hat
      split
      · rcases tryRefreshAuth_cases decode encode bl findById now
            (extractTokenFromCookies cookies).2 with
          h | ⟨r, payload, user, hrt, hvr, hf, heq⟩
        · exact Or.inl h
        · exact Or.inr ⟨payload, user, hf, Or.inr ⟨r, hrt, hvr, heq⟩⟩
      · rename_i payload hv
        split
        · rcases tryRefreshAuth_cases decode encode bl findById now
              (extractTokenFromCookies cookies).2 with
            h | ⟨r, payload', user, hrt, hvr, hf', heq⟩
          · exact Or.inl h
          · exact Or.inr ⟨payload', user, hf', Or.inr ⟨r, hrt, hvr, heq⟩⟩
        · rename_i user hf
          exact Or.inr ⟨payload, user, hf, Or.inl ⟨a, hat, hv, rfl⟩⟩
  · unfold createAuthContextHeader
    split
    · exact Or.inl rfl
    · rename_i token het
      split
      · exact Or.inl rfl
      · rename_i payload hv
        split
        · exact Or.inl rfl
        · rename_i user hf
          exact Or.inr ⟨token, payload, user, het, hv, hf, rfl⟩

end Careplus
